import Mathlib

/-!
Verification of the AquaData Pro calculation core.

The embedding models the three backend functions of `aquadata_app.py`
(`calcular_ahorro`, `obtener_estado_camaron`, `obtener_temp_real`) and the
stepped-model ration function of `camaron.py`
(`calcular_alimentacion_inteligente`).  Numeric values are modelled as exact
rationals; the fallible network fetch inside `obtener_temp_real` is modelled
as an `Except` value handed to the pure remainder of the function.
-/

namespace AquaData

/-- Result record of `calcular_ahorro`: the function returns the triple
`(alimento_necesario_kg, ahorro, tasa)`. -/
structure RationResult where
  alimento_necesario_kg : ℚ
  ahorro : ℚ
  tasa : ℚ
  deriving Repr, DecidableEq

/-- Embedding of `calcular_ahorro(temp_agua, biomasa_kg, precio_saco)` from
`src/aquadata_app.py`:

    tasa_optima = 0.03 * (1 - 0.01 * (temp_agua - 28)**2)
    tasa = max(0.005, tasa_optima)
    alimento_necesario_kg = biomasa_kg * tasa
    gasto_ciego = (biomasa_kg * 0.03 / 25) * precio_saco
    costo_optimo = (alimento_necesario_kg / 25) * precio_saco
    ahorro = gasto_ciego - costo_optimo
    return alimento_necesario_kg, ahorro, tasa
-/
def calcular_ahorro (temp_agua biomasa_kg precio_saco : ℚ) : RationResult :=
  let tasa_optima : ℚ := 0.03 * (1 - 0.01 * (temp_agua - 28) ^ 2)
  let tasa : ℚ := max 0.005 tasa_optima
  let alimento_necesario_kg : ℚ := biomasa_kg * tasa
  let gasto_ciego : ℚ := biomasa_kg * 0.03 / 25 * precio_saco
  let costo_optimo : ℚ := alimento_necesario_kg / 25 * precio_saco
  let ahorro : ℚ := gasto_ciego - costo_optimo
  ⟨alimento_necesario_kg, ahorro, tasa⟩

/-- The discrete status codes returned by `obtener_estado_camaron`. -/
inductive StatusCode where
  | cold
  | stressed
  | suffocating
  | healthy
  deriving Repr, DecidableEq

/-- Result record of `obtener_estado_camaron`: status code, color, emoji,
title and description. -/
structure StatusResult where
  code : StatusCode
  color : String
  emoji : String
  titulo : String
  descripcion : String
  deriving Repr, DecidableEq

/-- The tuple returned when the temperature check fires. -/
def cold_status : StatusResult :=
  ⟨.cold, "#3b82f6", "🥶", "Temperatura Crítica", "Riesgo térmico"⟩

/-- The tuple returned when the pH check fires. -/
def stressed_status : StatusResult :=
  ⟨.stressed, "#f59e0b", "😰", "Estresado", "pH desequilibrado"⟩

/-- The tuple returned when the oxygen check fires. -/
def suffocating_status : StatusResult :=
  ⟨.suffocating, "#ef4444", "😵", "Hipoxia", "Oxígeno bajo"⟩

/-- The tuple returned by the default branch. -/
def healthy_status : StatusResult :=
  ⟨.healthy, "#10b981", "🦐", "Saludable", "Condiciones óptimas"⟩

/-- Embedding of `obtener_estado_camaron(temp, ph, oxigeno)` from
`src/aquadata_app.py`, an ordered chain of `if` statements with early
returns:

    if temp < 24 or temp > 30: return cold tuple
    if ph < 7.5 or ph > 8.5:   return stressed tuple
    if oxigeno < 4:            return suffocating tuple
    return healthy tuple
-/
def obtener_estado_camaron (temp ph oxigeno : ℚ) : StatusResult :=
  if temp < 24 ∨ temp > 30 then cold_status
  else if ph < 7.5 ∨ ph > 8.5 then stressed_status
  else if oxigeno < 4 then suffocating_status
  else healthy_status

/-- Result record of `calcular_alimentacion_inteligente` from
`src/camaron.py` (all quantities the function computes before printing). -/
structure AlimentacionResult where
  tasa : ℚ
  estado : String
  alimento_necesario_kg : ℚ
  sacos_necesarios : ℚ
  costo_dia : ℚ
  gasto_ciego : ℚ
  ahorro : ℚ
  deriving Repr, DecidableEq

/-- Embedding of `calcular_alimentacion_inteligente(temp_agua, biomasa_kg,
precio_saco)` from `src/camaron.py`:

    if temp_agua > 26:          tasa = 0.03
    elif 24 <= temp_agua <= 26: tasa = 0.02
    else:                       tasa = 0.005
    alimento_necesario_kg = biomasa_kg * tasa
    sacos_necesarios = alimento_necesario_kg / 25
    costo_dia = sacos_necesarios * precio_saco
    gasto_ciego = (biomasa_kg * 0.03 / 25) * precio_saco
    ahorro = gasto_ciego - costo_dia
-/
def calcular_alimentacion_inteligente (temp_agua biomasa_kg precio_saco : ℚ) :
    AlimentacionResult :=
  let te : ℚ × String :=
    if temp_agua > 26 then (0.03, "🟢 Óptimo")
    else if 24 ≤ temp_agua ∧ temp_agua ≤ 26 then (0.02, "🟡 Precaución")
    else (0.005, "🔴 Crítico (Frío)")
  let tasa : ℚ := te.1
  let alimento_necesario_kg : ℚ := biomasa_kg * tasa
  let sacos_necesarios : ℚ := alimento_necesario_kg / 25
  let costo_dia : ℚ := sacos_necesarios * precio_saco
  let gasto_ciego : ℚ := biomasa_kg * 0.03 / 25 * precio_saco
  let ahorro : ℚ := gasto_ciego - costo_dia
  ⟨tasa, te.2, alimento_necesario_kg, sacos_necesarios, costo_dia, gasto_ciego, ahorro⟩

/-- Embedding of `obtener_temp_real` from `src/aquadata_app.py`.  The network
request and JSON access are modelled by an `Except` argument carrying either
the fetched `sst_max` list or a failure.  Python's `sst[-1]` / `sst[-2]` are
the first two elements of the reversed list; any failure inside the `try`
block (network error, parse error, or an out-of-range index on a list of
fewer than two elements) is caught and replaced by the fallback
`(26.0, 26.5, True)`:

    try:
        temp_hoy = respuesta['daily']['sst_max'][-2]
        temp_manana = respuesta['daily']['sst_max'][-1]
        return temp_hoy, temp_manana, False
    except Exception:
        return 26.0, 26.5, True
-/
def obtener_temp_real (respuesta : Except String (List ℚ)) : ℚ × ℚ × Bool :=
  match respuesta with
  | .error _ => (26, 26.5, true)
  | .ok sst =>
    match sst.reverse with
    | temp_manana :: temp_hoy :: _ => (temp_hoy, temp_manana, false)
    | _ => (26, 26.5, true)

/-- C1: for every temperature, biomass and sack price, `calcular_ahorro`
returns exactly `tasa = max(0.005, 0.03 * (1 - 0.01 * (temp - 28)^2))`,
`alimento_necesario_kg = biomasa * tasa`, and
`ahorro = (biomasa * 0.03 / 25) * precio - (alimento / 25) * precio`. -/
theorem calcular_ahorro_formulas (t b p : ℚ) :
    (calcular_ahorro t b p).tasa = max 0.005 (0.03 * (1 - 0.01 * (t - 28) ^ 2)) ∧
    (calcular_ahorro t b p).alimento_necesario_kg = b * (calcular_ahorro t b p).tasa ∧
    (calcular_ahorro t b p).ahorro =
      b * 0.03 / 25 * p - (calcular_ahorro t b p).alimento_necesario_kg / 25 * p :=
  ⟨rfl, rfl, rfl⟩

/-- Unfolding lemma: the rate field of `calcular_ahorro`. -/
theorem calcular_ahorro_tasa_def (t b p : ℚ) :
    (calcular_ahorro t b p).tasa = max 0.005 (0.03 * (1 - 0.01 * (t - 28) ^ 2)) := rfl

/-- Unfolding lemma: the feed-mass field of `calcular_ahorro`. -/
theorem calcular_ahorro_alimento_def (t b p : ℚ) :
    (calcular_ahorro t b p).alimento_necesario_kg = b * (calcular_ahorro t b p).tasa := rfl

/-- Unfolding lemma: the savings field of `calcular_ahorro`. -/
theorem calcular_ahorro_ahorro_def (t b p : ℚ) :
    (calcular_ahorro t b p).ahorro =
      b * 0.03 / 25 * p - b * (calcular_ahorro t b p).tasa / 25 * p := rfl

/-- The clamp keeps the continuous rate at or above 0.005. -/
theorem calcular_ahorro_tasa_lower (t b p : ℚ) : 0.005 ≤ (calcular_ahorro t b p).tasa := by
  rw [calcular_ahorro_tasa_def]
  exact le_max_left _ _

/-- The continuous rate never exceeds 0.03 (the parabola peaks at 0.03). -/
theorem calcular_ahorro_tasa_upper (t b p : ℚ) : (calcular_ahorro t b p).tasa ≤ 0.03 := by
  rw [calcular_ahorro_tasa_def]
  refine max_le (by norm_num) ?_
  nlinarith [sq_nonneg (t - 28)]

/-- C2: `obtener_estado_camaron` is an ordered decision list in which the
first matching rule wins: temperature risk first, then pH, then oxygen, then
the healthy default; in particular `obtener_estado_camaron 20 9 2` is the
cold status even though the pH and oxygen conditions also hold. -/
theorem obtener_estado_camaron_decision_list :
    (∀ t ph ox : ℚ, (t < 24 ∨ t > 30) →
      obtener_estado_camaron t ph ox = cold_status) ∧
    (∀ t ph ox : ℚ, ¬(t < 24 ∨ t > 30) → (ph < 7.5 ∨ ph > 8.5) →
      obtener_estado_camaron t ph ox = stressed_status) ∧
    (∀ t ph ox : ℚ, ¬(t < 24 ∨ t > 30) → ¬(ph < 7.5 ∨ ph > 8.5) → ox < 4 →
      obtener_estado_camaron t ph ox = suffocating_status) ∧
    (∀ t ph ox : ℚ, ¬(t < 24 ∨ t > 30) → ¬(ph < 7.5 ∨ ph > 8.5) → ¬(ox < 4) →
      obtener_estado_camaron t ph ox = healthy_status) ∧
    obtener_estado_camaron 20 9 2 = cold_status := by
  refine ⟨?_, ?_, ?_, ?_, ?_⟩
  · intro t ph ox h
    simp only [obtener_estado_camaron, if_pos h]
  · intro t ph ox h1 h2
    simp only [obtener_estado_camaron, if_neg h1, if_pos h2]
  · intro t ph ox h1 h2 h3
    simp only [obtener_estado_camaron, if_neg h1, if_neg h2, if_pos h3]
  · intro t ph ox h1 h2 h3
    simp only [obtener_estado_camaron, if_neg h1, if_neg h2, if_neg h3]
  · norm_num [obtener_estado_camaron]

/-- Witness for C2: each of the four branches applied at a concrete input. -/
theorem obtener_estado_camaron_decision_list_witness :
    obtener_estado_camaron 20 9 2 = cold_status ∧
    obtener_estado_camaron 27 9 5 = stressed_status ∧
    obtener_estado_camaron 27 8 3 = suffocating_status ∧
    obtener_estado_camaron 27 8 5 = healthy_status :=
  ⟨obtener_estado_camaron_decision_list.1 20 9 2 (by norm_num),
   obtener_estado_camaron_decision_list.2.1 27 9 5 (by norm_num) (by norm_num),
   obtener_estado_camaron_decision_list.2.2.1 27 8 3 (by norm_num) (by norm_num) (by norm_num),
   obtener_estado_camaron_decision_list.2.2.2.1 27 8 5 (by norm_num) (by norm_num)
     (by norm_num)⟩

/-- C5: for every temperature in [24, 30], pH in [7.5, 8.5] and oxygen ≥ 4,
`obtener_estado_camaron` returns the healthy status. -/
theorem obtener_estado_camaron_healthy_range (t ph ox : ℚ)
    (h1 : 24 ≤ t) (h2 : t ≤ 30) (h3 : 7.5 ≤ ph) (h4 : ph ≤ 8.5) (h5 : 4 ≤ ox) :
    obtener_estado_camaron t ph ox = healthy_status := by
  simp only [obtener_estado_camaron]
  rw [if_neg (by push_neg; constructor <;> linarith),
    if_neg (by push_neg; constructor <;> linarith), if_neg (by linarith)]

/-- Witness for C5: the healthy-range theorem at (27, 8, 5). -/
theorem obtener_estado_camaron_healthy_range_witness :
    obtener_estado_camaron 27 8 5 = healthy_status :=
  obtener_estado_camaron_healthy_range 27 8 5 (by norm_num) (by norm_num) (by norm_num)
    (by norm_num) (by norm_num)

/-- C10: `obtener_estado_camaron` returns the healthy status exactly when
24 ≤ temp ≤ 30, 7.5 ≤ pH ≤ 8.5 and oxygen ≥ 4; all boundary values are
classified healthy since every risk comparison is strict. -/
theorem obtener_estado_camaron_healthy_iff :
    (∀ t ph ox : ℚ, obtener_estado_camaron t ph ox = healthy_status ↔
      24 ≤ t ∧ t ≤ 30 ∧ 7.5 ≤ ph ∧ ph ≤ 8.5 ∧ 4 ≤ ox) ∧
    obtener_estado_camaron 24 7.5 4 = healthy_status ∧
    obtener_estado_camaron 30 8.5 4 = healthy_status := by
  refine ⟨fun t ph ox => ?_, by norm_num [obtener_estado_camaron],
    by norm_num [obtener_estado_camaron]⟩
  simp only [obtener_estado_camaron]
  split_ifs with h1 h2 h3
  · refine iff_of_false (by decide) ?_
    rintro ⟨ha, hb, -⟩
    rcases h1 with h | h <;> linarith
  · refine iff_of_false (by decide) ?_
    rintro ⟨-, -, hc, hd, -⟩
    rcases h2 with h | h <;> linarith
  · refine iff_of_false (by decide) ?_
    rintro ⟨-, -, -, -, he⟩
    linarith
  · refine iff_of_true rfl ?_
    push_neg at h1 h2
    exact ⟨h1.1, h1.2, h2.1, h2.2, le_of_not_lt h3⟩

/-- Witness for C10: the healthy characterisation applied at (25, 8, 5). -/
theorem obtener_estado_camaron_healthy_iff_witness :
    obtener_estado_camaron 25 8 5 = healthy_status :=
  (obtener_estado_camaron_healthy_iff.1 25 8 5).mpr (by norm_num)

/-- C3: the continuous rate always lies in [0.005, 0.03]; consequently with
nonnegative biomass and sack price the estimated savings are nonnegative. -/
theorem calcular_ahorro_rate_bounds_savings_nonneg :
    (∀ t b p : ℚ, 0.005 ≤ (calcular_ahorro t b p).tasa ∧
      (calcular_ahorro t b p).tasa ≤ 0.03) ∧
    (∀ t b p : ℚ, 0 ≤ b → 0 ≤ p → 0 ≤ (calcular_ahorro t b p).ahorro) := by
  refine ⟨fun t b p => ⟨calcular_ahorro_tasa_lower t b p, calcular_ahorro_tasa_upper t b p⟩,
    fun t b p hb hp => ?_⟩
  rw [calcular_ahorro_ahorro_def]
  have hr := calcular_ahorro_tasa_upper t b p
  nlinarith [mul_nonneg hb hp,
    mul_le_mul_of_nonneg_left hr (mul_nonneg hb hp)]

/-- Witness for C3: nonnegative savings at temperature 23, biomass 5000,
sack price 25. -/
theorem calcular_ahorro_rate_bounds_savings_nonneg_witness :
    0 ≤ (calcular_ahorro 23 5000 25).ahorro :=
  calcular_ahorro_rate_bounds_savings_nonneg.2 23 5000 25 (by norm_num) (by norm_num)

/-- Unfolding lemma: the rate field of the stepped model. -/
theorem calcular_alimentacion_inteligente_tasa_def (t b p : ℚ) :
    (calcular_alimentacion_inteligente t b p).tasa =
      if t > 26 then 0.03 else if 24 ≤ t ∧ t ≤ 26 then 0.02 else 0.005 := by
  simp only [calcular_alimentacion_inteligente]
  split_ifs <;> rfl

/-- C4: the stepped model uses rate 0.03 for temp > 26, 0.02 for
24 ≤ temp ≤ 26 and 0.005 otherwise; at (23, 5000, 25) it computes
rate 0.005, feed 25 kg, cost 25 USD, blind cost 150 USD and savings
125 USD. -/
theorem calcular_alimentacion_inteligente_spec :
    (∀ t b p : ℚ, 26 < t → (calcular_alimentacion_inteligente t b p).tasa = 0.03) ∧
    (∀ t b p : ℚ, 24 ≤ t → t ≤ 26 → (calcular_alimentacion_inteligente t b p).tasa = 0.02) ∧
    (∀ t b p : ℚ, t < 24 → (calcular_alimentacion_inteligente t b p).tasa = 0.005) ∧
    ((calcular_alimentacion_inteligente 23 5000 25).tasa = 0.005 ∧
     (calcular_alimentacion_inteligente 23 5000 25).alimento_necesario_kg = 25 ∧
     (calcular_alimentacion_inteligente 23 5000 25).costo_dia = 25 ∧
     (calcular_alimentacion_inteligente 23 5000 25).gasto_ciego = 150 ∧
     (calcular_alimentacion_inteligente 23 5000 25).ahorro = 125) := by
  refine ⟨fun t b p h => ?_, fun t b p h1 h2 => ?_, fun t b p h => ?_, ?_⟩
  · rw [calcular_alimentacion_inteligente_tasa_def, if_pos h]
  · rw [calcular_alimentacion_inteligente_tasa_def, if_neg (by linarith : ¬ t > 26),
      if_pos ⟨h1, h2⟩]
  · rw [calcular_alimentacion_inteligente_tasa_def, if_neg (by linarith : ¬ t > 26),
      if_neg (by rintro ⟨h1, -⟩; linarith)]
  · norm_num [calcular_alimentacion_inteligente]

/-- Witness for C4: each rate branch of the stepped model at a concrete
temperature. -/
theorem calcular_alimentacion_inteligente_spec_witness :
    (calcular_alimentacion_inteligente 27 5000 25).tasa = 0.03 ∧
    (calcular_alimentacion_inteligente 25 5000 25).tasa = 0.02 ∧
    (calcular_alimentacion_inteligente 23 5000 25).tasa = 0.005 :=
  ⟨calcular_alimentacion_inteligente_spec.1 27 5000 25 (by norm_num),
   calcular_alimentacion_inteligente_spec.2.1 25 5000 25 (by norm_num) (by norm_num),
   calcular_alimentacion_inteligente_spec.2.2.1 23 5000 25 (by norm_num)⟩

/-- C6: at temperature 28 the continuous rate is exactly 0.03 for every
biomass and price, and `calcular_ahorro 28 5000 25` yields feed mass 150 kg
and savings exactly 0. -/
theorem calcular_ahorro_at_vertex :
    (∀ b p : ℚ, (calcular_ahorro 28 b p).tasa = 0.03) ∧
    (calcular_ahorro 28 5000 25).alimento_necesario_kg = 150 ∧
    (calcular_ahorro 28 5000 25).ahorro = 0 := by
  have htasa : ∀ b p : ℚ, (calcular_ahorro 28 b p).tasa = 0.03 := by
    intro b p
    rw [calcular_ahorro_tasa_def, show (0.03 : ℚ) * (1 - 0.01 * (28 - 28) ^ 2) = 0.03 by
      norm_num]
    exact max_eq_right (by norm_num)
  refine ⟨htasa, ?_, ?_⟩
  · rw [calcular_ahorro_alimento_def, htasa]
    norm_num
  · rw [calcular_ahorro_ahorro_def, htasa]
    norm_num

/-- C7: when the underlying fetch fails, `obtener_temp_real` swallows the
failure and returns exactly (26.0, 26.5, true); on a successful fetch whose
list ends in the two temperatures a and b it returns (a, b, false). -/
theorem obtener_temp_real_spec :
    (∀ e : String, obtener_temp_real (.error e) = (26, 26.5, true)) ∧
    (∀ (xs : List ℚ) (a b : ℚ), obtener_temp_real (.ok (xs ++ [a, b])) = (a, b, false)) := by
  refine ⟨fun e => rfl, fun xs a b => ?_⟩
  simp only [obtener_temp_real, List.reverse_append, List.reverse_cons, List.reverse_nil,
    List.nil_append, List.cons_append, List.append_assoc]

/-- C8: the two core functions are total over the rationals; zero biomass
gives zero feed and zero savings, zero price gives zero savings, nonpositive
biomass with nonnegative price gives nonpositive feed and savings, and the
classifier always returns one of its four fixed tuples. -/
theorem core_total_on_degenerate_inputs :
    (∀ t p : ℚ, (calcular_ahorro t 0 p).alimento_necesario_kg = 0 ∧
      (calcular_ahorro t 0 p).ahorro = 0) ∧
    (∀ t b : ℚ, (calcular_ahorro t b 0).ahorro = 0) ∧
    (∀ t b p : ℚ, b ≤ 0 → 0 ≤ p →
      (calcular_ahorro t b p).alimento_necesario_kg ≤ 0 ∧
      (calcular_ahorro t b p).ahorro ≤ 0) ∧
    (∀ t ph ox : ℚ, obtener_estado_camaron t ph ox = cold_status ∨
      obtener_estado_camaron t ph ox = stressed_status ∨
      obtener_estado_camaron t ph ox = suffocating_status ∨
      obtener_estado_camaron t ph ox = healthy_status) := by
  refine ⟨fun t p => ⟨?_, ?_⟩, fun t b => ?_, fun t b p hb hp => ⟨?_, ?_⟩, fun t ph ox => ?_⟩
  · rw [calcular_ahorro_alimento_def]
    ring
  · rw [calcular_ahorro_ahorro_def]
    ring
  · rw [calcular_ahorro_ahorro_def]
    ring
  · rw [calcular_ahorro_alimento_def]
    have h := calcular_ahorro_tasa_lower t b p
    nlinarith
  · rw [calcular_ahorro_ahorro_def]
    have h := calcular_ahorro_tasa_upper t b p
    nlinarith [mul_nonpos_of_nonpos_of_nonneg hb hp,
      mul_le_mul_of_nonpos_left h (mul_nonpos_of_nonpos_of_nonneg hb hp)]
  · unfold obtener_estado_camaron
    split_ifs <;> tauto

/-- Witness for C8: nonpositive feed and savings for biomass -10 at price
25 and temperature 25. -/
theorem core_total_on_degenerate_inputs_witness :
    (calcular_ahorro 25 (-10) 25).alimento_necesario_kg ≤ 0 ∧
    (calcular_ahorro 25 (-10) 25).ahorro ≤ 0 :=
  core_total_on_degenerate_inputs.2.2.1 25 (-10) 25 (by norm_num) (by norm_num)

/-- C9: the continuous model is symmetric about 28 °C: temperatures 28 + d
and 28 − d give identical results for every biomass and price. -/
theorem calcular_ahorro_symmetric (d b p : ℚ) :
    calcular_ahorro (28 + d) b p = calcular_ahorro (28 - d) b p := by
  have h : (28 + d - 28 : ℚ) ^ 2 = (28 - d - 28) ^ 2 := by ring
  simp only [calcular_ahorro, h]

end AquaData
